import Mathlib

/-!
# Verification of SyferText core utilities

Shallow embedding of `src/syfertext/utils.py`:

* `normalize_slice` — slice-boundary normalization;
* `create_state_query` — query construction (`f"{pipeline_name}:{state_name}"`);
* `search_resource` — tiered resolution (local registry → disk cache → network
  fan-out over known workers);
* `create_mpc_config` — SMPC participant selection.

Python strings are modelled as `List Char`; Python dicts as association lists
in insertion order; the random draw of `np.random.choice` as an explicit
oracle function constrained by hypotheses; Python exceptions as `Except`.
-/

namespace SyferText

/-- Embedding of Python `str.split(sep)` for a one-character separator:
splitting the empty string gives `[""]`, and each occurrence of the
separator starts a new (possibly empty) segment. -/
def pysplit (sep : Char) : List Char → List (List Char)
  | [] => [[]]
  | c :: rest =>
    if c = sep then
      [] :: pysplit sep rest
    else
      match pysplit sep rest with
      | [] => [[c]]
      | h :: t => (c :: h) :: t

/-- Embedding of Python `str.replace(old, new)` for one-character arguments. -/
def pyreplace (old new : Char) (s : List Char) : List Char :=
  s.map (fun c => if c = old then new else c)

/-- Embedding of `create_state_query(pipeline_name, state_name)`:
`query = f"{pipeline_name}:{state_name}"`. -/
def create_state_query (pipeline_name state_name : List Char) : List Char :=
  pipeline_name ++ ':' :: state_name

/-- Embedding of `normalize_slice(length, start, stop, step)`.
`None` arguments are `Option.none`; the Python `assert` on `step` is
modelled by returning `none` when the assertion fails. -/
def normalize_slice (length : Int) (start stop : Option Int)
    (step : Option Int) : Option (Int × Int) :=
  if step = none ∨ step = some 1 then
    let start0 : Int :=
      match start with
      | none => 0
      | some v => if v < 0 then v + length else v
    let start1 : Int := min length (max 0 start0)
    let stop0 : Int :=
      match stop with
      | none => length
      | some v => if v < 0 then v + length else v
    let stop1 : Int := min length (max start1 stop0)
    some (start1, stop1)
  else
    none

/-- Embedding of `os.path.join(a, b)` on a POSIX system (for the relative
component names that `search_resource` actually joins). -/
def pjoin (a b : List Char) : List Char :=
  a ++ '/' :: b

/-- Errors that `search_resource` can raise: the two `assert` failures
(ambiguous result on the local worker, ambiguous result on a remote worker)
and a transport failure propagating out of `request_search`. -/
inductive SErr where
  | ambiguousLocal : SErr
  | ambiguousRemote : SErr
  | transport : SErr
  deriving DecidableEq, Repr

/-- Successful outcomes of `search_resource`: the object found on the local
worker (`result[0]`), the object deserialized from the disk cache
(`simplified_state`), a pointer returned by a remote worker (`object_ptr`),
or the implicit `None` when every tier misses. -/
inductive SResult (α : Type) where
  | localObj : α → SResult α
  | cached : α → SResult α
  | remotePtr : α → SResult α
  | notFound : SResult α
  deriving DecidableEq, Repr

/-- The collaborators of `search_resource` on the local worker:
`search` (local registry lookup), `_known_workers` (iterated in order by the
fan-out), and `request_search` (remote lookup, which may raise a transport
failure, modelled as `Except.error`). -/
structure Worker (π α : Type) where
  search : List Char → List α
  knownWorkers : List π
  requestSearch : List Char → π → Except Unit (List α)

/-- The filesystem as `search_resource` observes it: `os.path.exists` on a
directory, and for a path that is a regular file, its size together with
the object `dill.load` would produce from it. -/
structure FileSystem (α : Type) where
  dirExists : List Char → Bool
  file : List Char → Option (Nat × α)

/-- The observable outcome of one `search_resource` call: the returned value
(or the exception raised), whether the disk-cache tier was consulted at all,
and the peers that were sent a `request_search`, in order. -/
structure SOut (π α : Type) where
  result : Except SErr (SResult α)
  cacheChecked : Bool
  peersQueried : List π

/-- The directory `search_resource` probes for the cache:
`os.path.join(Path.home(), "SyferText", "cache", query.split(":")[0])`. -/
def cacheDir (home query : List Char) : List Char :=
  pjoin (pjoin (pjoin home ("SyferText".toList)) ("cache".toList))
    (pysplit ':' query).headI

/-- The full path of the cache file:
`data_path + "/{}.pkl".format(query.replace(":", "-"))`. -/
def cacheFilePath (home query : List Char) : List Char :=
  cacheDir home query ++ '/' :: (pyreplace ':' '-' query ++ ".pkl".toList)

/-- Embedding of the network fan-out loop of `search_resource`
(`for _, location in local_worker._known_workers.items(): ...`).
Returns the outcome together with the list of peers actually queried.
A transport failure propagates at once; an empty result list moves on to the
next peer; a singleton returns the pointer; anything longer fails the
`assert len(result) == 1`. -/
def fan_out {π α : Type} (req : π → Except Unit (List α)) :
    List π → Except SErr (SResult α) × List π
  | [] => (Except.ok SResult.notFound, [])
  | p :: rest =>
    match req p with
    | Except.error _ => (Except.error SErr.transport, [p])
    | Except.ok [] =>
      let r := fan_out req rest
      (r.1, p :: r.2)
    | Except.ok [x] => (Except.ok (SResult.remotePtr x), [p])
    | Except.ok (_ :: _ :: _) => (Except.error SErr.ambiguousRemote, [p])

/-- Embedding of `search_resource(query, local_worker)`. Tier 1 is the local
registry (`local_worker.search`); tier 2 the disk cache under
`~/SyferText/cache`; tier 3 the fan-out over `_known_workers`. -/
def search_resource {π α : Type} (w : Worker π α) (fs : FileSystem α)
    (home query : List Char) : SOut π α :=
  match w.search query with
  | [x] => ⟨Except.ok (SResult.localObj x), false, []⟩
  | _ :: _ :: _ => ⟨Except.error SErr.ambiguousLocal, false, []⟩
  | [] =>
    let net : SOut π α :=
      let r := fan_out (w.requestSearch query) w.knownWorkers
      ⟨r.1, true, r.2⟩
    if fs.dirExists (cacheDir home query) then
      match fs.file (cacheFilePath home query) with
      | some sc =>
        if sc.1 > 0 then ⟨Except.ok (SResult.cached sc.2), true, []⟩
        else net
      | none => net
    else net

/-- The dict key `f"node_{i}"`. -/
def nodeKey (i : Nat) : String :=
  "node_" ++ toString i

/-- Embedding of `create_mpc_config(worker)`. `knownWorkers` is
`worker._known_workers` as an association list in insertion order; `pick` is
the oracle standing for `np.random.choice(a=keys, size=3, replace=False)`
(its guarantees — three distinct elements drawn from the argument — are
hypotheses of the theorems below). The returned dict is an association list
in insertion order; `None` is `Option.none`. -/
def create_mpc_config {π : Type} [Inhabited π]
    (knownWorkers : List (String × π)) (pick : List String → List String) :
    Option (List (String × π)) :=
  let kw := knownWorkers.filter (fun p => p.1 != "me")
  if kw.length = 1 then
    none
  else
    let cfg0 : List (String × π) := []
    let cfg1 : List (String × π) :=
      if kw.length = 2 then
        let base := kw.enum.map (fun p => (nodeKey p.1, p.2.2))
        base ++ [("node_2", (base.lookup "node_1").getD default)]
      else cfg0
    let cfg2 : List (String × π) :=
      if kw.length ≥ 3 then
        (pick (kw.map Prod.fst)).enum.map
          (fun p => (nodeKey p.1, (kw.lookup p.2).getD default))
      else cfg1
    some cfg2

/-! ## Helper lemmas -/

/-- Splitting a string that does not contain the separator yields the
singleton list holding the whole string. -/
theorem pysplit_eq_of_not_mem (sep : Char) (xs : List Char) (h : sep ∉ xs) :
    pysplit sep xs = [xs] := by
  induction xs with
  | nil => rfl
  | cons c rest ih =>
    have hc : ¬ c = sep := fun hce => h (hce ▸ List.mem_cons_self c rest)
    have hr : sep ∉ rest := fun hm => h (List.mem_cons_of_mem c hm)
    simp only [pysplit, if_neg hc, ih hr]

/-- When the local registry misses and the cache file for the query is
missing or empty, `search_resource` reduces to the network fan-out
(whatever the directory-existence probe says). -/
theorem search_resource_net_of_miss {π α : Type} (w : Worker π α)
    (fs : FileSystem α) (home query : List Char)
    (hloc : w.search query = [])
    (hcache : fs.file (cacheFilePath home query) = none ∨
      ∃ c, fs.file (cacheFilePath home query) = some (0, c)) :
    search_resource w fs home query =
      ⟨(fan_out (w.requestSearch query) w.knownWorkers).1, true,
        (fan_out (w.requestSearch query) w.knownWorkers).2⟩ := by
  rcases hcache with h | ⟨c, h⟩ <;>
    cases hdir : fs.dirExists (cacheDir home query) <;>
      simp [search_resource, hloc, hdir, h]

/-- Prepending peers that answer with an empty result list to the fan-out
only records them as queried and leaves the outcome to the rest. -/
theorem fan_out_skip_empty {π α : Type} (req : π → Except Unit (List α))
    (pre rest : List π) (hpre : ∀ q ∈ pre, req q = Except.ok []) :
    fan_out req (pre ++ rest) =
      ((fan_out req rest).1, pre ++ (fan_out req rest).2) := by
  induction pre with
  | nil => simp
  | cons q qs ih =>
    have hq := hpre q (List.mem_cons_self q qs)
    have ih2 := ih (fun r hr => hpre r (List.mem_cons_of_mem q hr))
    simp [fan_out, hq, ih2]

/-! ## Claims -/

/-- C9: for all strings `ns` and `name` that do not contain the separator
character `:`, splitting the query produced by `create_state_query ns name`
on the separator yields back exactly the pair `(ns, name)`. -/
theorem create_state_query_roundtrip (ns name : List Char)
    (hns : ':' ∉ ns) (hname : ':' ∉ name) :
    pysplit ':' (create_state_query ns name) = [ns, name] := by
  induction ns with
  | nil =>
    simp [create_state_query, pysplit, pysplit_eq_of_not_mem ':' name hname]
  | cons c rest ih =>
    have hc : ¬ c = ':' := fun hce => hns (hce ▸ List.mem_cons_self c rest)
    have hr : ':' ∉ rest := fun hm => hns (List.mem_cons_of_mem c hm)
    simp only [create_state_query, List.cons_append, pysplit, if_neg hc,
      List.append_eq] at ih ⊢
    rw [ih hr]

/-- C9 witness: concrete round trip for `ns = "pipe"`, `name = "state"`. -/
theorem create_state_query_roundtrip_witness :
    (':' ∉ "pipe".toList ∧ ':' ∉ "state".toList) ∧
    pysplit ':' (create_state_query "pipe".toList "state".toList) =
      ["pipe".toList, "state".toList] :=
  ⟨by decide,
   create_state_query_roundtrip "pipe".toList "state".toList
     (by decide) (by decide)⟩

/-- C10: for every integer `length ≥ 0` and every start/stop arguments
(each an integer or `None`) with step `None` or `1`, `normalize_slice`
returns a pair `(start1, stop1)` with `0 ≤ start1 ≤ stop1 ≤ length`. -/
theorem normalize_slice_bounds (length : Int) (start stop step : Option Int)
    (hlen : 0 ≤ length) (hstep : step = none ∨ step = some 1) :
    ∃ s t, normalize_slice length start stop step = some (s, t) ∧
      0 ≤ s ∧ s ≤ t ∧ t ≤ length := by
  rcases start with _ | sv <;> rcases stop with _ | tv <;>
    simp only [normalize_slice, if_pos hstep] <;>
    refine ⟨_, _, rfl, ?_, ?_, ?_⟩ <;> (try split_ifs) <;> omega

/-- C10 witness: the docstring example `length = 6, start = -4, stop = -1`
normalizes to `(2, 5)` and satisfies the bounds. -/
theorem normalize_slice_bounds_witness :
    (0 ≤ (6 : Int) ∧ ((none : Option Int) = none ∨ (none : Option Int) = some 1)) ∧
    ∃ s t, normalize_slice 6 (some (-4)) (some (-1)) none = some (s, t) ∧
      0 ≤ s ∧ s ≤ t ∧ t ≤ 6 :=
  ⟨⟨by decide, Or.inl rfl⟩,
   normalize_slice_bounds 6 (some (-4)) (some (-1)) none (by decide) (Or.inl rfl)⟩

/-- C1: if the local worker's registry returns exactly one match for the
query, resolution returns that object as the local result, does not consult
the disk cache and issues no remote search request to any peer. -/
theorem local_hit_short_circuit {π α : Type} (w : Worker π α)
    (fs : FileSystem α) (home query : List Char) (x : α)
    (h : w.search query = [x]) :
    search_resource w fs home query =
      ⟨Except.ok (SResult.localObj x), false, []⟩ := by
  simp [search_resource, h]

/-- A worker whose local registry holds exactly one match for every query. -/
def oneHitWorker : Worker Unit Nat :=
  ⟨fun _ => [7], [()], fun _ _ => Except.ok []⟩

/-- A filesystem where directories exist but no file does. -/
def bareFS : FileSystem Nat :=
  ⟨fun _ => true, fun _ => none⟩

/-- C1 witness: concrete local hit at query `"pipe:state"`. -/
theorem local_hit_short_circuit_witness :
    oneHitWorker.search "pipe:state".toList = [7] ∧
    search_resource oneHitWorker bareFS "/home/u".toList "pipe:state".toList =
      ⟨Except.ok (SResult.localObj 7), false, []⟩ :=
  ⟨rfl, local_hit_short_circuit oneHitWorker bareFS "/home/u".toList
    "pipe:state".toList 7 rfl⟩

/-- C4: if the local registry returns more than one match, `search_resource`
raises the ambiguity failure (the `assert len(result) == 1`) and performs no
further tier lookups: the cache is not consulted and no peer is queried. -/
theorem ambiguous_local_aborts {π α : Type} (w : Worker π α)
    (fs : FileSystem α) (home query : List Char) (x y : α) (tl : List α)
    (h : w.search query = x :: y :: tl) :
    search_resource w fs home query =
      ⟨Except.error SErr.ambiguousLocal, false, []⟩ := by
  simp [search_resource, h]

/-- A worker whose local registry holds two matches for every query. -/
def twoHitWorker : Worker Unit Nat :=
  ⟨fun _ => [3, 4], [()], fun _ _ => Except.ok []⟩

/-- C4 witness: concrete ambiguous local registry with two matches. -/
theorem ambiguous_local_aborts_witness :
    twoHitWorker.search "pipe:state".toList = [3, 4] ∧
    search_resource twoHitWorker bareFS "/home/u".toList "pipe:state".toList =
      ⟨Except.error SErr.ambiguousLocal, false, []⟩ :=
  ⟨rfl, ambiguous_local_aborts twoHitWorker bareFS "/home/u".toList
    "pipe:state".toList 3 4 [] rfl⟩

/-- C6: with no local match, a missing or zero-length cache file is a cache
miss, not an error: resolution proceeds with the network search over the
known workers (the outcome and the queried peers are exactly those of the
fan-out). -/
theorem cache_miss_proceeds_to_network {π α : Type} (w : Worker π α)
    (fs : FileSystem α) (home query : List Char)
    (hloc : w.search query = [])
    (hcache : fs.file (cacheFilePath home query) = none ∨
      ∃ c, fs.file (cacheFilePath home query) = some (0, c)) :
    search_resource w fs home query =
      ⟨(fan_out (w.requestSearch query) w.knownWorkers).1, true,
        (fan_out (w.requestSearch query) w.knownWorkers).2⟩ :=
  search_resource_net_of_miss w fs home query hloc hcache

/-- A worker with an empty local registry, two known peers, and remote
results: peer 1 has no match, peer 2 has one match `9`. -/
def remoteHitWorker : Worker Nat Nat :=
  ⟨fun _ => [], [1, 2],
   fun _ p => if p = 2 then Except.ok [9] else Except.ok []⟩

/-- A filesystem holding a zero-length cache file for query `"pipe:state"`
under home `"/home/u"`, inside an existing directory. -/
def emptyFileFS : FileSystem Nat :=
  ⟨fun _ => true,
   fun p => if p = cacheFilePath "/home/u".toList "pipe:state".toList
            then some (0, 11) else none⟩

/-- C6 witness: a zero-length cache file falls through to the fan-out, which
here finds the match on peer 2 after querying peer 1. -/
theorem cache_miss_proceeds_to_network_witness :
    (remoteHitWorker.search "pipe:state".toList = [] ∧
     ∃ c, emptyFileFS.file (cacheFilePath "/home/u".toList "pipe:state".toList) =
       some (0, c)) ∧
    search_resource remoteHitWorker emptyFileFS "/home/u".toList
        "pipe:state".toList =
      ⟨(fan_out (remoteHitWorker.requestSearch "pipe:state".toList)
          remoteHitWorker.knownWorkers).1, true,
        (fan_out (remoteHitWorker.requestSearch "pipe:state".toList)
          remoteHitWorker.knownWorkers).2⟩ :=
  ⟨⟨rfl, ⟨11, by simp [emptyFileFS]⟩⟩,
   cache_miss_proceeds_to_network remoteHitWorker emptyFileFS
     "/home/u".toList "pipe:state".toList rfl
     (Or.inr ⟨11, by simp [emptyFileFS]⟩)⟩

/-- C7: during the fan-out, on the first peer returning exactly one match the
resolution returns that remote pointer immediately; the peers queried are
exactly the preceding (empty-answering) peers and that peer — none of the
remaining peers is sent a request. -/
theorem remote_first_found_wins {π α : Type} (w : Worker π α)
    (fs : FileSystem α) (home query : List Char)
    (pre post : List π) (p : π) (x : α)
    (hloc : w.search query = [])
    (hcache : fs.file (cacheFilePath home query) = none ∨
      ∃ c, fs.file (cacheFilePath home query) = some (0, c))
    (hkw : w.knownWorkers = pre ++ p :: post)
    (hpre : ∀ q ∈ pre, w.requestSearch query q = Except.ok [])
    (hp : w.requestSearch query p = Except.ok [x]) :
    search_resource w fs home query =
      ⟨Except.ok (SResult.remotePtr x), true, pre ++ [p]⟩ := by
  rw [search_resource_net_of_miss w fs home query hloc hcache, hkw,
    fan_out_skip_empty (w.requestSearch query) pre (p :: post) hpre]
  simp [fan_out, hp]

/-- C7 witness: peer 1 answers empty, peer 2 returns the single match `9`;
the result is the remote pointer and exactly peers 1 and 2 were queried. -/
theorem remote_first_found_wins_witness :
    (remoteHitWorker.search "pipe:state".toList = [] ∧
     remoteHitWorker.knownWorkers = [1] ++ 2 :: [] ∧
     remoteHitWorker.requestSearch "pipe:state".toList 1 = Except.ok [] ∧
     remoteHitWorker.requestSearch "pipe:state".toList 2 = Except.ok [9]) ∧
    search_resource remoteHitWorker bareFS "/home/u".toList
        "pipe:state".toList =
      ⟨Except.ok (SResult.remotePtr 9), true, [1] ++ [2]⟩ :=
  ⟨⟨rfl, rfl, rfl, rfl⟩,
   remote_first_found_wins remoteHitWorker bareFS "/home/u".toList
     "pipe:state".toList [1] [] 2 9 rfl (Or.inl rfl) rfl
     (by intro q hq; simp at hq; subst hq; rfl) rfl⟩

/-- A worker with an empty local registry and two known peers where peer 1
raises a transport failure and peer 2 holds exactly one match `9`. -/
def failingPeerWorker : Worker Nat Nat :=
  ⟨fun _ => [], [1, 2],
   fun _ p => if p = 1 then Except.error () else Except.ok [9]⟩

/-- A filesystem with no directories and no files (every cache probe
misses). -/
def missFS : FileSystem Nat :=
  ⟨fun _ => false, fun _ => none⟩

/-- C5 counterexample: the fan-out loop has no exception handler, so a
transport failure at peer 1 propagates and ABORTS the whole resolution —
the result is the transport error and peer 2, which holds the match, is
never queried; the failure is not treated as a non-match for peer 1 only. -/
theorem transport_failure_aborts_cex :
    (search_resource failingPeerWorker missFS "/home/u".toList
        "pipe:state".toList).result = Except.error SErr.transport ∧
    (search_resource failingPeerWorker missFS "/home/u".toList
        "pipe:state".toList).peersQueried = [1] := by
  constructor <;> rfl

/-- C5 amended: a transport failure raised while searching one peer
propagates out of `search_resource` and aborts the whole resolution — the
peers after the failing one are not queried. -/
theorem transport_failure_aborts {π α : Type} (w : Worker π α)
    (fs : FileSystem α) (home query : List Char)
    (pre post : List π) (p : π)
    (hloc : w.search query = [])
    (hcache : fs.file (cacheFilePath home query) = none ∨
      ∃ c, fs.file (cacheFilePath home query) = some (0, c))
    (hkw : w.knownWorkers = pre ++ p :: post)
    (hpre : ∀ q ∈ pre, w.requestSearch query q = Except.ok [])
    (hp : w.requestSearch query p = Except.error ()) :
    search_resource w fs home query =
      ⟨Except.error SErr.transport, true, pre ++ [p]⟩ := by
  rw [search_resource_net_of_miss w fs home query hloc hcache, hkw,
    fan_out_skip_empty (w.requestSearch query) pre (p :: post) hpre]
  simp [fan_out, hp]

/-- C5 amended witness: concrete failing peer 1 with peer 2 unqueried. -/
theorem transport_failure_aborts_witness :
    (failingPeerWorker.search "pipe:state".toList = [] ∧
     failingPeerWorker.knownWorkers = [] ++ 1 :: [2] ∧
     failingPeerWorker.requestSearch "pipe:state".toList 1 =
       Except.error ()) ∧
    search_resource failingPeerWorker missFS "/home/u".toList
        "pipe:state".toList =
      ⟨Except.error SErr.transport, true, [] ++ [1]⟩ :=
  ⟨⟨rfl, rfl, rfl⟩,
   transport_failure_aborts failingPeerWorker missFS "/home/u".toList
     "pipe:state".toList [] [2] 1 rfl (Or.inl rfl) rfl
     (by intro q hq; simp at hq) rfl⟩

/-- C8: for every registry whose eligible set (all known workers except
`"me"`) has exactly one peer, `create_mpc_config` returns `None`; and
`None` is returned in exactly that case, so insufficiency is signaled only
by the `None` return value (the embedding is a total function — no code
path raises). -/
theorem insufficient_peers_none {π : Type} [Inhabited π]
    (knownWorkers : List (String × π)) (pick : List String → List String) :
    create_mpc_config knownWorkers pick = none ↔
      (knownWorkers.filter (fun p => p.1 != "me")).length = 1 := by
  simp only [create_mpc_config]
  split_ifs with h <;> simp [h]

/-- A registry with the local worker and two others. -/
def kwTwo : List (String × String) :=
  [("me", "M"), ("a", "A"), ("b", "B")]

/-- C2 (code bug): with exactly two eligible peers the code fills keys
`node_0` and `node_1`, then duplicates `node_1`'s peer under the key
`node_2` — it never creates a `crypto_provider` key, although its own
docstring documents `config['crypto_provider']`. -/
theorem two_eligible_no_crypto_provider_key :
    create_mpc_config kwTwo (fun l => l) =
      some [("node_0", "A"), ("node_1", "B"), ("node_2", "B")] ∧
    "crypto_provider" ∉
      ((create_mpc_config kwTwo (fun l => l)).getD []).map Prod.fst := by
  constructor
  · rfl
  · decide

/-- A registry with the local worker and three others. -/
def kwThree : List (String × String) :=
  [("me", "M"), ("a", "A"), ("b", "B"), ("c", "C")]

/-- C3 (code bug): with three eligible peers and the draw `["a", "b", "c"]`
the code returns three distinct eligible peers, but under the keys
`node_0`, `node_1` and `node_2`: no `crypto_provider` key is created,
contrary to the docstring and the claimed role names. -/
theorem three_eligible_no_crypto_provider_key :
    create_mpc_config kwThree (fun l => l.take 3) =
      some [("node_0", "A"), ("node_1", "B"), ("node_2", "C")] ∧
    "crypto_provider" ∉
      ((create_mpc_config kwThree (fun l => l.take 3)).getD []).map
        Prod.fst := by
  constructor
  · rfl
  · decide

end SyferText
